import Mathlib

/-!
Shallow embedding of the synthetic transaction generator
(`generate_data_enhanced.py`) of the Digital_Transaction_Analysis
repository, together with proofs of the spec's claims about it.

The Python generator draws from a single seeded `random` stream.  We model
that stream as a function `ℕ → ℚ` together with a position counter: every
primitive draw consumes one stream element.  Continuous draws
(`random.random()`, `random.uniform`) read the fractional part of the
element, so each draw yields a value in `[0,1)`; discrete draws
(`random.choice`, `random.randint`, index selection inside
`random.choices`) reduce the element modulo the number of alternatives.
Quantifying over all streams covers every behaviour of the seeded PRNG.
Money amounts and probabilities are embedded as rationals.
-/

set_option maxRecDepth 100000

namespace DigitalTxn

/-- The ambient seeded random source (`random.seed(42)` fixes one stream;
the embedding is parametric in the stream). -/
structure RNG where
  stream : ℕ → ℚ
  pos : ℕ

/-- `random.random()`: one draw, value in `[0,1)`. -/
def RNG.rand (r : RNG) : ℚ × RNG :=
  (Int.fract (r.stream r.pos), ⟨r.stream, r.pos + 1⟩)

/-- One draw reduced modulo `n`: the primitive behind `random.choice`,
`random.randint` and the index selection of `random.choices`. -/
def RNG.natLt (r : RNG) (n : ℕ) : ℕ × RNG :=
  ((⌊r.stream r.pos⌋).natAbs % n, ⟨r.stream, r.pos + 1⟩)

/-- `random.uniform(lo, hi)` = `lo + (hi-lo) * random.random()`. -/
def uniform (lo hi : ℚ) (r : RNG) : ℚ × RNG :=
  (lo + (hi - lo) * r.rand.1, r.rand.2)

/-- `random.randint(a, b)`: uniform integer in `[a, b]`. -/
def randint (a b : ℕ) (r : RNG) : ℕ × RNG :=
  (a + (r.natLt (b + 1 - a)).1, (r.natLt (b + 1 - a)).2)

/-- `random.choice(l)`: uniform element of `l` (the default `d` is dead
code for the nonempty lists the generator uses). -/
def randomChoice {α : Type} (l : List α) (d : α) (r : RNG) : α × RNG :=
  (l.getD (r.natLt l.length).1 d, (r.natLt l.length).2)

/-- Cumulative-weight selection, as in `random.choices`: walk the list,
returning the first element whose cumulative weight exceeds the target
`t`; the last element absorbs the tail (bisect capped at `len - 1`). -/
def pickCum {α : Type} : List α → List ℚ → ℚ → α → α
  | [], _, _, d => d
  | [a], _, _, _ => a
  | a :: _ :: _, [], _, _ => a
  | a :: b :: l, w :: ws, t, d => if t < w then a else pickCum (b :: l) ws (t - w) d

/-- `random.choices(l, weights=ws, k=1)[0]`: one uniform draw scaled by the
total weight, then cumulative selection. -/
def weightedPick {α : Type} (l : List α) (ws : List ℚ) (d : α) (r : RNG) : α × RNG :=
  (pickCum l ws (r.rand.1 * ws.sum) d, r.rand.2)

/-- Round half to even at integer precision (Python's `round`). -/
def roundHalfEven (y : ℚ) : ℤ :=
  if Int.fract y < 1/2 then ⌊y⌋
  else if 1/2 < Int.fract y then ⌊y⌋ + 1
  else if 2 ∣ ⌊y⌋ then ⌊y⌋ else ⌊y⌋ + 1

/-- Python's `round(x, 2)` (idealised over ℚ). -/
def round2 (x : ℚ) : ℚ := (roundHalfEven (x * 100) : ℚ) / 100

/-- Python's `int()` applied to a nonnegative-or-negative quotient:
truncation toward zero. -/
def pyInt (q : ℚ) : ℤ := if 0 ≤ q then ⌊q⌋ else -⌊-q⌋

/-! ### Configuration tables (verbatim from the source) -/

def ageGroups : List String := ["18-24", "25-34", "35-44", "45-54", "55+"]
def ageWeights : List ℚ := [0.18, 0.35, 0.25, 0.14, 0.08]

def genders : List String := ["Male", "Female", "Other"]
def genderWeights : List ℚ := [0.52, 0.46, 0.02]

def accountTenures : List String :=
  ["0-6 months", "6-12 months", "1-2 years", "2-5 years", "5+ years"]
def tenureWeights : List ℚ := [0.12, 0.15, 0.25, 0.30, 0.18]

def customerTiers : List String := ["New", "Regular", "Premium", "VIP"]
def tierWeights : List ℚ := [0.15, 0.45, 0.28, 0.12]

def cities : List String :=
  ["Mumbai", "Delhi", "Bangalore", "Hyderabad", "Chennai",
   "Pune", "Kolkata", "Ahmedabad", "Jaipur", "Lucknow",
   "Chandigarh", "Indore", "Coimbatore", "Kochi", "Guwahati"]
def cityWeights : List ℚ :=
  [0.16, 0.14, 0.14, 0.10, 0.09, 0.07, 0.06, 0.05, 0.04, 0.04,
   0.03, 0.03, 0.02, 0.02, 0.01]

def personas : List String := ["Budget", "Moderate", "High Spender", "Impulse"]
def personaWeights : List ℚ := [0.30, 0.40, 0.20, 0.10]

def paymentMethods : List String :=
  ["UPI", "Credit Card", "Debit Card", "Net Banking", "Mobile Wallet"]
def methodWeights : List ℚ := [0.40, 0.18, 0.15, 0.12, 0.15]

def categories : List String :=
  ["Food & Dining", "Shopping", "Bills & Utilities", "Travel",
   "Entertainment", "Health", "Education", "Transfers", "Groceries",
   "Investments"]
def catWeights : List ℚ := [0.20, 0.17, 0.15, 0.10, 0.09, 0.06, 0.04, 0.06, 0.08, 0.05]

def merchantsFor (c : String) : List String :=
  if c = "Food & Dining" then
    ["Swiggy", "Zomato", "Dominos", "McDonalds", "Starbucks", "KFC", "Pizza Hut", "Haldirams"]
  else if c = "Shopping" then
    ["Amazon", "Flipkart", "Myntra", "Ajio", "Meesho", "Nykaa", "Croma", "Reliance Digital"]
  else if c = "Bills & Utilities" then
    ["Jio Recharge", "Airtel", "Electricity Board", "Gas Agency", "Water Board", "Broadband Bill", "DTH Recharge"]
  else if c = "Travel" then
    ["IRCTC", "MakeMyTrip", "Uber", "Ola", "RedBus", "Yatra", "GoIbibo", "Rapido"]
  else if c = "Entertainment" then
    ["Netflix", "Spotify", "BookMyShow", "Hotstar", "Amazon Prime", "YouTube Premium", "Sony LIV"]
  else if c = "Health" then
    ["Pharmeasy", "Apollo Pharmacy", "1mg", "Practo", "Netmeds", "MediBuddy", "Tata Health"]
  else if c = "Education" then
    ["Udemy", "Coursera", "Unacademy", "BYJU\u0027S", "Skillshare", "Simplilearn", "upGrad"]
  else if c = "Transfers" then
    ["Google Pay P2P", "PhonePe P2P", "Paytm P2P", "NEFT Transfer", "IMPS Transfer", "UPI Transfer"]
  else if c = "Groceries" then
    ["BigBasket", "Blinkit", "Zepto", "JioMart", "DMart", "Swiggy Instamart"]
  else if c = "Investments" then
    ["Zerodha", "Groww", "CAMS Mutual Fund", "Paytm Money", "Coin by Zerodha"]
  else []

/-- `amount_ranges` dict: `(lo, hi)` per category. -/
def amountRanges (c : String) : ℚ × ℚ :=
  if c = "Food & Dining" then (50, 2500)
  else if c = "Shopping" then (200, 15000)
  else if c = "Bills & Utilities" then (100, 5000)
  else if c = "Travel" then (150, 12000)
  else if c = "Entertainment" then (99, 1500)
  else if c = "Health" then (50, 8000)
  else if c = "Education" then (500, 20000)
  else if c = "Transfers" then (100, 50000)
  else if c = "Groceries" then (80, 4000)
  else if c = "Investments" then (500, 100000)
  else (0, 0)

def failureRate (m : String) : ℚ :=
  if m = "UPI" then 0.06
  else if m = "Credit Card" then 0.04
  else if m = "Debit Card" then 0.08
  else if m = "Net Banking" then 0.10
  else if m = "Mobile Wallet" then 0.05
  else 0

def failureReasonsFor (m : String) : List String :=
  if m = "UPI" then
    ["Server Timeout", "Insufficient Balance", "Invalid UPI ID", "Bank Server Down", "Transaction Limit Exceeded"]
  else if m = "Credit Card" then
    ["Card Declined", "Insufficient Limit", "CVV Mismatch", "Card Expired", "3D Auth Failed"]
  else if m = "Debit Card" then
    ["Insufficient Balance", "Card Blocked", "PIN Incorrect", "Daily Limit Exceeded", "Bank Server Down"]
  else if m = "Net Banking" then
    ["Session Expired", "OTP Failed", "Bank Server Down", "Authentication Failed", "Timeout"]
  else if m = "Mobile Wallet" then
    ["Insufficient Balance", "Wallet Limit Exceeded", "KYC Pending", "Server Error", "Invalid PIN"]
  else []

def platforms : List String := ["Mobile App", "Web Browser", "POS Terminal", "QR Code"]
def platformWeights : List ℚ := [0.45, 0.25, 0.15, 0.15]

/-- `monthly_multiplier` seasonal table. -/
def monthlyMultiplier (m : ℕ) : ℚ :=
  if m = 1 then 1.15 else if m = 2 then 0.90 else if m = 3 then 1.05
  else if m = 4 then 0.95 else if m = 5 then 0.90 else if m = 6 then 0.85
  else if m = 7 then 1.00 else if m = 8 then 1.10 else if m = 9 then 1.05
  else if m = 10 then 1.30 else if m = 11 then 1.35 else if m = 12 then 1.20
  else 0

/-- `seasonal_category_boost` table, as a multiplier per (month, category). -/
def seasonalBoost (month : ℕ) (c : String) : ℚ :=
  if month = 10 then
    (if c = "Shopping" then 1.6 else if c = "Food & Dining" then 1.3
     else if c = "Entertainment" then 1.2 else 1)
  else if month = 11 then
    (if c = "Shopping" then 1.8 else if c = "Food & Dining" then 1.4
     else if c = "Travel" then 1.3 else if c = "Entertainment" then 1.3 else 1)
  else if month = 12 then
    (if c = "Shopping" then 1.3 else if c = "Travel" then 1.4
     else if c = "Food & Dining" then 1.2 else 1)
  else if month = 3 then
    (if c = "Shopping" then 1.2 else if c = "Food & Dining" then 1.3 else 1)
  else if month = 8 then
    (if c = "Shopping" then 1.4 else 1)
  else 1

def hourWeights : List ℚ :=
  [0.5, 0.3, 0.2, 0.2, 0.2, 0.3, 0.8, 1.5, 2.5, 3.5,
   4.0, 4.5, 5.0, 4.5, 3.5, 3.0, 3.5, 4.0, 4.5, 5.0,
   4.5, 3.5, 2.5, 1.5]

/-- `high_threshold` dict with its `.get(category, 50000)` default. -/
def highThreshold (c : String) : ℚ :=
  if c = "Food & Dining" then 2000 else if c = "Shopping" then 12000
  else if c = "Bills & Utilities" then 4000 else if c = "Travel" then 10000
  else if c = "Entertainment" then 1200 else if c = "Health" then 6000
  else if c = "Education" then 15000 else if c = "Transfers" then 40000
  else if c = "Groceries" then 3000 else if c = "Investments" then 80000
  else 50000

def genericFraudReasons : List String :=
  ["Multiple Failed Attempts", "Velocity Check Triggered",
   "Device Mismatch", "Location Anomaly", "New Device Login"]

def personaMultiplier (p : String) : ℚ :=
  if p = "Budget" then 0.6 else if p = "Moderate" then 1.0
  else if p = "High Spender" then 1.8 else if p = "Impulse" then 1.3
  else 1

/-! ### Monthly volume partition (`monthly_txn_counts`) -/

/-- `all_months = [(y, m) for y in [2024, 2025] for m in range(1, 13)]`. -/
def allMonths : List (ℕ × ℕ) :=
  ([2024, 2025].map fun y => (List.range' 1 12).map fun m => (y, m)).flatten

/-- `total_weight = sum(monthly_multiplier[m] for _, m in all_months)`. -/
def totalWeight (mult : ℕ → ℚ) : ℚ :=
  (allMonths.map fun p => mult p.2).sum

/-- Partition loop: every month but the last gets `count p`; the last month
gets the running remainder. -/
def monthlyGo (count : ℕ × ℕ → ℤ) : List (ℕ × ℕ) → ℤ → List ((ℕ × ℕ) × ℤ)
  | [], _ => []
  | [p], rem => [(p, rem)]
  | p :: q :: ps, rem => (p, count p) :: monthlyGo count (q :: ps) (rem - count p)

/-- `monthly_txn_counts`: non-final months get
`int(N * (multiplier[m] / total_weight))`, the last month absorbs the
remainder. -/
def monthlyTxnCounts (N : ℤ) (mult : ℕ → ℚ) : List ((ℕ × ℕ) × ℤ) :=
  monthlyGo (fun p => pyInt ((N : ℚ) * (mult p.2 / totalWeight mult))) allMonths N

theorem monthlyGo_sum (count : ℕ × ℕ → ℤ) :
    ∀ (l : List (ℕ × ℕ)) (rem : ℤ), l ≠ [] →
      ((monthlyGo count l rem).map Prod.snd).sum = rem
  | [], _, h => absurd rfl h
  | [p], rem, _ => by simp [monthlyGo]
  | p :: q :: ps, rem, _ => by
    have ih := monthlyGo_sum count (q :: ps) (rem - count p) (by simp)
    simp [monthlyGo, ih]


/-! ### Calendar (proleptic Gregorian, as `datetime` / `calendar`) -/

def isLeap (y : ℕ) : Bool := y % 4 == 0 && (y % 100 != 0 || y % 400 == 0)

/-- `calendar.monthrange(year, month)[1]`. -/
def daysInMonth (y m : ℕ) : ℕ :=
  if m = 2 then (if isLeap y then 29 else 28)
  else if m = 4 ∨ m = 6 ∨ m = 9 ∨ m = 11 then 30
  else 31

def daysBeforeMonth (y m : ℕ) : ℕ :=
  ((List.range' 1 (m - 1)).map (daysInMonth y)).sum

/-- Days since 0001-01-01 (that date itself is day 0, a Monday in the
proleptic Gregorian calendar `datetime` uses). -/
def toOrdinal (y m d : ℕ) : ℕ :=
  365 * (y - 1) + (y - 1) / 4 + (y - 1) / 400 - (y - 1) / 100
    + daysBeforeMonth y m + (d - 1)

/-- `datetime.weekday()`: Monday = 0 … Sunday = 6. -/
def weekday (y m d : ℕ) : ℕ := toOrdinal y m d % 7

/-- Total order key standing for `transaction_datetime`. -/
def dtKey (y m d h mi s : ℕ) : ℕ :=
  ((toOrdinal y m d * 24 + h) * 60 + mi) * 60 + s

/-! ### User population -/

structure Profile where
  city : String
  age_group : String
  gender : String
  account_tenure : String
  customer_tier : String
  spending_persona : String
  preferred_method : String
  deriving DecidableEq, Repr, Inhabited

/-- `str(i).zfill(5)` prefixed with `"USR"`. -/
def zfill (w : ℕ) (s : String) : String :=
  String.mk (List.replicate (w - s.length) '0') ++ s

def mkUserId (i : ℕ) : String := "USR" ++ zfill 5 (toString i)

def mkTxnId (i : ℕ) : String := "TXN" ++ zfill 7 (toString i)

def userIds (n : ℕ) : List String := (List.range' 1 n).map mkUserId

/-- One user profile: seven weighted draws, in source order. -/
def genProfile (r0 : RNG) : Profile × RNG :=
  let c := weightedPick cities cityWeights "" r0
  let a := weightedPick ageGroups ageWeights "" c.2
  let g := weightedPick genders genderWeights "" a.2
  let t := weightedPick accountTenures tenureWeights "" g.2
  let ti := weightedPick customerTiers tierWeights "" t.2
  let p := weightedPick personas personaWeights "" ti.2
  let pm := weightedPick paymentMethods methodWeights "" p.2
  ({ city := c.1, age_group := a.1, gender := g.1, account_tenure := t.1,
     customer_tier := ti.1, spending_persona := p.1, preferred_method := pm.1 }, pm.2)

/-- The `user_profiles` dict, in insertion order. -/
def genProfilesGo : List String → RNG → List (String × Profile) × RNG
  | [], r => ([], r)
  | uid :: rest, r =>
    let p := genProfile r
    let t := genProfilesGo rest p.2
    ((uid, p.1) :: t.1, t.2)

def genUsers (n : ℕ) (r : RNG) : List (String × Profile) × RNG :=
  genProfilesGo (userIds n) r

/-! ### Per-transaction blocks -/

/-- Per-row method weights: the user's preferred method boosted 2.5×. -/
def adjustedMethodWeights (preferred : String) : List ℚ :=
  (paymentMethods.zip methodWeights).map fun p =>
    if p.1 = preferred then p.2 * 2.5 else p.2

/-- Per-row category weights: seasonal boost, then weekend boost 1.2× for
Food & Dining / Entertainment / Shopping. -/
def adjustedCatWeights (month : ℕ) (isWeekend : ℕ) : List ℚ :=
  (categories.zip catWeights).map fun p =>
    (p.2 * seasonalBoost month p.1) *
      (if isWeekend = 1 ∧ (p.1 = "Food & Dining" ∨ p.1 = "Entertainment" ∨ p.1 = "Shopping")
       then 1.2 else 1)

/-- `amount = max(lo, min(amount, hi * 2))`. -/
def amountClamp (c : String) (x : ℚ) : ℚ :=
  max (amountRanges c).1 (min x ((amountRanges c).2 * 2))

/-- `fail_rate = failure_rates[method] * peak_failure_boost`. -/
def failRateAt (method : String) (hour : ℕ) : ℚ :=
  failureRate method *
    (if hour = 12 ∨ hour = 13 ∨ hour = 18 ∨ hour = 19 ∨ hour = 20 then 1.4 else 1)

/-- Status / failure-reason block (source lines 229–244). -/
def statusBlock (method : String) (hour : ℕ) (r0 : RNG) : String × Option String × RNG :=
  if r0.rand.1 < failRateAt method hour then
    ("Failed", some (randomChoice (failureReasonsFor method) "" r0.rand.2).1,
      (randomChoice (failureReasonsFor method) "" r0.rand.2).2)
  else if r0.rand.2.rand.1 < 0.03 then ("Pending", some "Processing", r0.rand.2.rand.2)
  else ("Success", none, r0.rand.2.rand.2)

/-- Processing-time block: status-dependent uniform range. -/
def processingBlock (status : String) (r : RNG) : ℚ × RNG :=
  if status = "Success" then (round2 (uniform 0.5 3.0 r).1, (uniform 0.5 3.0 r).2)
  else if status = "Failed" then (round2 (uniform 2.0 15.0 r).1, (uniform 2.0 15.0 r).2)
  else (round2 (uniform 5.0 30.0 r).1, (uniform 5.0 30.0 r).2)

/-- Cashback draw: probability `chance`, then `amount * U(0.01, 0.10)`. -/
def cashbackPart (chance amount : ℚ) (r : RNG) : ℚ × RNG :=
  if r.rand.1 < chance then
    (round2 (amount * (uniform 0.01 0.10 r.rand.2).1), (uniform 0.01 0.10 r.rand.2).2)
  else (0, r.rand.2)

/-- Discount draw: only for three categories, probability 0.30, then
`amount * U(0.05, 0.20)` (the coin is only tossed when the category
matches, as in the source's short-circuit `and`). -/
def discountPart (category : String) (amount : ℚ) (r : RNG) : ℚ × RNG :=
  if category = "Shopping" ∨ category = "Food & Dining" ∨ category = "Groceries" then
    (if r.rand.1 < 0.30 then
      (round2 (amount * (uniform 0.05 0.20 r.rand.2).1), (uniform 0.05 0.20 r.rand.2).2)
     else (0, r.rand.2))
  else (0, r)

/-- Cashback / discount block (both zero unless Success). -/
def cashbackBlock (status method category : String) (amount : ℚ) (r : RNG) :
    ℚ × ℚ × RNG :=
  if status = "Success" then
    ((cashbackPart (if method = "Credit Card" ∨ method = "Mobile Wallet" then 0.25 else 0.12) amount r).1,
     (discountPart category amount
       (cashbackPart (if method = "Credit Card" ∨ method = "Mobile Wallet" then 0.25 else 0.12) amount r).2).1,
     (discountPart category amount
       (cashbackPart (if method = "Credit Card" ∨ method = "Mobile Wallet" then 0.25 else 0.12) amount r).2).2)
  else (0, 0, r)

/-- Fraud rule a: category-specific high amount (coin only tossed when the
guard holds). -/
def fraudRuleA (category : String) (amount : ℚ) (r0 : RNG) :
    (Bool × Option String) × RNG :=
  if amount > highThreshold category then
    (if r0.rand.1 < 0.15 then ((true, some "Unusually High Amount"), r0.rand.2)
     else ((false, none), r0.rand.2))
  else ((false, none), r0)

/-- Fraud rule b: late-night high amount.  The source's second `if` is NOT
guarded by `is_flagged`, so this rule runs (and can overwrite the flag and
reason) even when rule a already fired. -/
def fraudRuleB (amount : ℚ) (hour : ℕ) (st : (Bool × Option String) × RNG) :
    (Bool × Option String) × RNG :=
  if (hour = 0 ∨ hour = 1 ∨ hour = 2 ∨ hour = 3 ∨ hour = 4) ∧ amount > 5000 then
    (if st.2.rand.1 < 0.20 then
      ((true, some "Suspicious Late Night Transaction"), st.2.rand.2)
     else (st.1, st.2.rand.2))
  else st

/-- Fraud rule c: baseline generic flag, guarded by `not is_flagged`. -/
def fraudRuleC (st : (Bool × Option String) × RNG) : Bool × Option String × RNG :=
  if st.1.1 = false then
    (if st.2.rand.1 < 0.008 then
      (true, some (randomChoice genericFraudReasons "" st.2.rand.2).1,
        (randomChoice genericFraudReasons "" st.2.rand.2).2)
     else (st.1.1, st.1.2, st.2.rand.2))
  else (st.1.1, st.1.2, st.2)

/-- Fraud-flag block (source lines 270–294): the three rule `if`s in
sequence. -/
def fraudFlag (category : String) (amount : ℚ) (hour : ℕ) (r0 : RNG) :
    Bool × Option String × RNG :=
  fraudRuleC (fraudRuleB amount hour (fraudRuleA category amount r0))

/-- Refund block: only Success transactions in four categories. -/
def refundBlock (status category : String) (amount : ℚ) (r : RNG) :
    Bool × ℚ × RNG :=
  if status = "Success" ∧
      (category = "Shopping" ∨ category = "Travel" ∨ category = "Food & Dining" ∨
       category = "Entertainment") then
    (if r.rand.1 < 0.04 then
      (if r.rand.2.rand.1 < 0.6 then (true, amount, r.rand.2.rand.2)
       else (true, round2 (amount * (uniform 0.3 0.8 r.rand.2.rand.2).1),
         (uniform 0.3 0.8 r.rand.2.rand.2).2))
     else (false, 0, r.rand.2))
  else (false, 0, r)

/-- Device-type block: conditioned on platform (POS draws nothing). -/
def deviceBlock (platform : String) (r : RNG) : String × RNG :=
  if platform = "Mobile App" then weightedPick ["Android", "iOS"] [0.72, 0.28] "" r
  else if platform = "Web Browser" then
    weightedPick ["Windows", "Mac", "Linux"] [0.65, 0.25, 0.10] "" r
  else if platform = "POS Terminal" then ("POS", r)
  else weightedPick ["Android", "iOS"] [0.72, 0.28] "" r


/-! ### One transaction (source loop body, lines 182–338) -/

structure Txn where
  counter : ℕ
  transaction_id : String
  user_id : String
  datetime : ℕ
  payment_method : String
  category : String
  merchant : String
  amount : ℚ
  status : String
  failure_reason : Option String
  platform : String
  device_type : String
  city : String
  processing_time_sec : ℚ
  is_weekend : ℕ
  cashback_earned : ℚ
  discount_applied : ℚ
  is_flagged : Bool
  fraud_reason : Option String
  is_refunded : Bool
  refund_amount : ℚ
  deriving DecidableEq, Repr, Inhabited

/-- All values drawn for one transaction, in the exact source order.  The
record keeps each sampled field; the blocks are chained through the RNG
states exactly as the source consumes the shared `random` stream. -/
structure Draws where
  user_id : String
  profile : Profile
  day : ℕ
  hour : ℕ
  minute : ℕ
  second : ℕ
  isWeekend : ℕ
  method : String
  category : String
  merchant : String
  amount : ℚ
  status : String
  failure_reason : Option String
  platform : String
  processing_time : ℚ
  cashback : ℚ
  discount : ℚ
  is_flagged : Bool
  fraud_reason : Option String
  is_refunded : Bool
  refund_amount : ℚ
  device_type : String
  rEnd : RNG

def draws (profiles : List (String × Profile)) (year month dim : ℕ) (r0 : RNG) : Draws :=
  let s1 := randomChoice (profiles.map Prod.fst) "" r0
  let prof := (profiles.lookup s1.1).getD default
  let s2 := randint 1 dim s1.2
  let s3 := weightedPick (List.range 24) hourWeights 0 s2.2
  let s4 := randint 0 59 s3.2
  let s5 := randint 0 59 s4.2
  let dow := weekday year month s2.1
  let isW : ℕ := if 5 ≤ dow then 1 else 0
  let s6 := weightedPick paymentMethods (adjustedMethodWeights prof.preferred_method) "" s5.2
  let s7 := weightedPick categories (adjustedCatWeights month isW) "" s6.2
  let s8 := randomChoice (merchantsFor s7.1) "" s7.2
  let s9 := uniform (amountRanges s7.1).1 (amountRanges s7.1).2 s8.2
  let amt := amountClamp s7.1 (round2 (s9.1 * personaMultiplier prof.spending_persona))
  let s10 := statusBlock s6.1 s3.1 s9.2
  let s11 := weightedPick platforms platformWeights "" s10.2.2
  let s12 := processingBlock s10.1 s11.2
  let s13 := cashbackBlock s10.1 s6.1 s7.1 amt s12.2
  let s14 := fraudFlag s7.1 amt s3.1 s13.2.2
  let s15 := refundBlock s10.1 s7.1 amt s14.2.2
  let s16 := deviceBlock s11.1 s15.2.2
  { user_id := s1.1, profile := prof,
    day := s2.1, hour := s3.1, minute := s4.1, second := s5.1,
    isWeekend := isW,
    method := s6.1, category := s7.1, merchant := s8.1,
    amount := amt,
    status := s10.1, failure_reason := s10.2.1,
    platform := s11.1,
    processing_time := s12.1,
    cashback := s13.1, discount := s13.2.1,
    is_flagged := s14.1, fraud_reason := s14.2.1,
    is_refunded := s15.1, refund_amount := s15.2.1,
    device_type := s16.1,
    rEnd := s16.2 }

def genOneTxn (profiles : List (String × Profile)) (year month dim counter : ℕ)
    (r0 : RNG) : Txn × RNG :=
  let d := draws profiles year month dim r0
  ({ counter := counter, transaction_id := mkTxnId counter,
     user_id := d.user_id,
     datetime := dtKey year month d.day d.hour d.minute d.second,
     payment_method := d.method, category := d.category, merchant := d.merchant,
     amount := d.amount, status := d.status, failure_reason := d.failure_reason,
     platform := d.platform, device_type := d.device_type,
     city := d.profile.city, processing_time_sec := d.processing_time,
     is_weekend := d.isWeekend,
     cashback_earned := d.cashback, discount_applied := d.discount,
     is_flagged := d.is_flagged, fraud_reason := d.fraud_reason,
     is_refunded := d.is_refunded, refund_amount := d.refund_amount }, d.rEnd)

/-- `for _ in range(count)`: the counter is incremented before each row. -/
def genTxnsLoop (profiles : List (String × Profile)) (year month dim : ℕ) :
    ℕ → ℕ → RNG → List Txn × RNG
  | 0, _, r => ([], r)
  | Nat.succ k, ctr, r =>
    let t := genOneTxn profiles year month dim (ctr + 1) r
    let rest := genTxnsLoop profiles year month dim k (ctr + 1) t.2
    (t.1 :: rest.1, rest.2)

/-- Outer loop over `monthly_txn_counts.items()`. -/
def genAllTxns (profiles : List (String × Profile)) :
    List ((ℕ × ℕ) × ℤ) → ℕ → RNG → List Txn × RNG
  | [], _, r => ([], r)
  | (ym, c) :: rest, ctr, r =>
    let batch := genTxnsLoop profiles ym.1 ym.2 (daysInMonth ym.1 ym.2) c.toNat ctr r
    let more := genAllTxns profiles rest (ctr + c.toNat) batch.2
    (batch.1 ++ more.1, more.2)

/-- The whole generation run: the user table followed by the transaction
list in generation order (before the final sort).  `n` is the population
size (500 in the source), `N` the total transaction count (60000). -/
def generateAll (n : ℕ) (N : ℤ) (r : RNG) : List (String × Profile) × List Txn :=
  let us := genUsers n r
  let ts := genAllTxns us.1 (monthlyTxnCounts N monthlyMultiplier) 0 us.2
  (us.1, ts.1)

/-! ### Assembler: `df.sort_values('transaction_datetime')` -/

/-- Datetime order used by the final sort. -/
def dtLE (a b : Txn) : Prop := a.datetime ≤ b.datetime

instance : DecidableRel dtLE := fun a b => inferInstanceAs (Decidable (a.datetime ≤ b.datetime))

instance : IsTotal Txn dtLE := ⟨fun a b => Nat.le_total a.datetime b.datetime⟩

instance : IsTrans Txn dtLE := ⟨fun _ _ _ h1 h2 => Nat.le_trans h1 h2⟩

/-- What `pandas.DataFrame.sort_values(column)` guarantees: the output is a
permutation of the rows, sorted by the column.  The default
`kind='quicksort'` is documented as not stable, so nothing more is
guaranteed about the order of equal keys. -/
def SortValuesContract (f : List Txn → List Txn) : Prop :=
  ∀ l : List Txn, (f l).Perm l ∧ (f l).Sorted dtLE

/-- A conforming sort implementation (stable, used as a witness that the
contract is satisfiable). -/
def sortByDt (l : List Txn) : List Txn := l.insertionSort dtLE

/-- A second conforming sort implementation that orders equal datetimes by
descending counter: also satisfies the `sort_values` contract. -/
def dtThenRevCounter (a b : Txn) : Prop :=
  a.datetime < b.datetime ∨ (a.datetime = b.datetime ∧ b.counter ≤ a.counter)

instance : DecidableRel dtThenRevCounter := fun a b =>
  inferInstanceAs (Decidable (a.datetime < b.datetime ∨ (a.datetime = b.datetime ∧ b.counter ≤ a.counter)))

instance : IsTotal Txn dtThenRevCounter := by
  constructor
  intro a b
  rcases Nat.lt_trichotomy a.datetime b.datetime with h | h | h
  · exact Or.inl (Or.inl h)
  · rcases Nat.le_total b.counter a.counter with h2 | h2
    · exact Or.inl (Or.inr ⟨h, h2⟩)
    · exact Or.inr (Or.inr ⟨h.symm, h2⟩)
  · exact Or.inr (Or.inl h)

instance : IsTrans Txn dtThenRevCounter := by
  constructor
  intro a b c hab hbc
  rcases hab with h1 | ⟨e1, c1⟩
  · rcases hbc with h2 | ⟨e2, _⟩
    · exact Or.inl (h1.trans h2)
    · exact Or.inl (e2 ▸ h1)
  · rcases hbc with h2 | ⟨e2, c2⟩
    · exact Or.inl (e1 ▸ h2)
    · exact Or.inr ⟨e1.trans e2, Nat.le_trans c2 c1⟩

def badSort (l : List Txn) : List Txn := l.insertionSort dtThenRevCounter


/-! ### Basic facts about the sampling primitives -/

theorem rand_nonneg (r : RNG) : 0 ≤ r.rand.1 := Int.fract_nonneg _

theorem rand_lt_one (r : RNG) : r.rand.1 < 1 := Int.fract_lt_one _

theorem pickCum_mem {α : Type} :
    ∀ (l : List α) (ws : List ℚ) (t : ℚ) (d : α), l ≠ [] → pickCum l ws t d ∈ l
  | [], _, _, _, h => absurd rfl h
  | [_], _, _, _, _ => by simp [pickCum]
  | _ :: _ :: _, [], _, _, _ => by simp [pickCum]
  | a :: b :: l, w :: ws, t, d, _ => by
    unfold pickCum
    split
    · exact List.mem_cons_self a _
    · exact List.mem_cons_of_mem _ (pickCum_mem (b :: l) ws (t - w) d (by simp))

theorem weightedPick_mem {α : Type} (l : List α) (ws : List ℚ) (d : α) (r : RNG)
    (h : l ≠ []) : (weightedPick l ws d r).1 ∈ l :=
  pickCum_mem l ws _ d h

theorem randomChoice_mem {α : Type} (l : List α) (d : α) (r : RNG) (h : l ≠ []) :
    (randomChoice l d r).1 ∈ l := by
  have hk : (⌊r.stream r.pos⌋).natAbs % l.length < l.length :=
    Nat.mod_lt _ (List.length_pos.mpr h)
  show l.getD ((⌊r.stream r.pos⌋).natAbs % l.length) d ∈ l
  rw [List.getD_eq_getElem?_getD, List.getElem?_eq_getElem hk, Option.getD_some]
  exact List.getElem_mem hk

theorem lookup_mem {α β : Type} [BEq α] [LawfulBEq α] :
    ∀ (l : List (α × β)) (k : α) (v : β), l.lookup k = some v → (k, v) ∈ l
  | [], k, v, h => by simp [List.lookup] at h
  | (a, b) :: l, k, v, h => by
    unfold List.lookup at h
    split at h
    · next heq =>
      cases h
      have hk : k = a := by simpa using heq
      subst hk
      exact List.mem_cons_self _ _
    · exact List.mem_cons_of_mem _ (lookup_mem l k v h)

theorem lookup_of_mem_keys {α β : Type} [BEq α] [LawfulBEq α] :
    ∀ (l : List (α × β)) (k : α), k ∈ l.map Prod.fst → ∃ v, l.lookup k = some v
  | [], k, h => by simp at h
  | (a, b) :: l, k, h => by
    unfold List.lookup
    split
    · exact ⟨b, rfl⟩
    · next hne =>
      have hk : k ≠ a := by simpa using hne
      have h2 : k = a ∨ k ∈ l.map Prod.fst := by
        rw [List.map_cons] at h
        exact List.mem_cons.mp h
      rcases h2 with h1 | h1
      · exact absurd h1 hk
      · exact lookup_of_mem_keys l k h1

/-! ### Rounding bounds -/

theorem roundHalfEven_bounds (y : ℚ) :
    y - 1/2 ≤ (roundHalfEven y : ℚ) ∧ (roundHalfEven y : ℚ) ≤ y + 1/2 := by
  have h0 := Int.fract_nonneg y
  have h1 := Int.fract_lt_one y
  have h2 := Int.self_sub_fract y
  unfold roundHalfEven
  split_ifs <;> constructor <;> push_cast <;> linarith

theorem round2_bounds (x : ℚ) : x - 1/200 ≤ round2 x ∧ round2 x ≤ x + 1/200 := by
  obtain ⟨h1, h2⟩ := roundHalfEven_bounds (x * 100)
  unfold round2
  constructor <;> [linarith; linarith]

theorem uniform_bounds (lo hi : ℚ) (r : RNG) (h : lo ≤ hi) :
    lo ≤ (uniform lo hi r).1 ∧ (uniform lo hi r).1 ≤ hi := by
  have h0 := rand_nonneg r
  have h1 := rand_lt_one r
  unfold uniform
  constructor
  · dsimp only
    nlinarith
  · dsimp only
    nlinarith


/-! ### Block-level lemmas -/

theorem statusBlock_reason_iff (m : String) (h : ℕ) (r : RNG) :
    (statusBlock m h r).2.1.isSome = true ↔
      ((statusBlock m h r).1 = "Failed" ∨ (statusBlock m h r).1 = "Pending") := by
  unfold statusBlock
  split_ifs <;> simp

theorem fraudRuleA_iff (c : String) (a : ℚ) (r : RNG) :
    ((fraudRuleA c a r).1.1 = true ↔ (fraudRuleA c a r).1.2.isSome = true) := by
  unfold fraudRuleA
  split_ifs <;> simp

theorem fraudRuleB_iff (a : ℚ) (h : ℕ) (st : (Bool × Option String) × RNG)
    (hst : st.1.1 = true ↔ st.1.2.isSome = true) :
    ((fraudRuleB a h st).1.1 = true ↔ (fraudRuleB a h st).1.2.isSome = true) := by
  unfold fraudRuleB
  split_ifs <;> simp_all

theorem fraudRuleC_iff (st : (Bool × Option String) × RNG)
    (hst : st.1.1 = true ↔ st.1.2.isSome = true) :
    ((fraudRuleC st).1 = true ↔ (fraudRuleC st).2.1.isSome = true) := by
  unfold fraudRuleC
  split_ifs <;> simp_all

theorem fraudFlag_flag_iff (cat : String) (amt : ℚ) (h : ℕ) (r : RNG) :
    (fraudFlag cat amt h r).1 = true ↔ (fraudFlag cat amt h r).2.1.isSome = true :=
  fraudRuleC_iff _ (fraudRuleB_iff amt h _ (fraudRuleA_iff cat amt r))

theorem amountRanges_lo_le (c : String) :
    (amountRanges c).1 ≤ (amountRanges c).2 * 2 := by
  unfold amountRanges
  split_ifs <;> norm_num

theorem amountClamp_bounds (c : String) (x : ℚ) :
    (amountRanges c).1 ≤ amountClamp c x ∧ amountClamp c x ≤ (amountRanges c).2 * 2 :=
  ⟨le_max_left _ _, max_le (amountRanges_lo_le c) (min_le_right _ _)⟩

theorem amountRanges_one_le (c : String) (hc : c ∈ categories) :
    1 ≤ (amountRanges c).1 := by
  fin_cases hc <;> exact of_decide_eq_true (by with_unfolding_all rfl)

theorem refundBlock_spec (st cat : String) (amt : ℚ) (r : RNG) (h : 1 ≤ amt) :
    ((refundBlock st cat amt r).1 = true →
      0 < (refundBlock st cat amt r).2.1 ∧ (refundBlock st cat amt r).2.1 ≤ amt ∧
        st = "Success") ∧
    ((refundBlock st cat amt r).1 = false → (refundBlock st cat amt r).2.1 = 0) := by
  unfold refundBlock
  split_ifs with h1 h2 h3
  · exact ⟨fun _ => ⟨by linarith, le_refl _, h1.1⟩, fun hf => by simp at hf⟩
  · have hu := uniform_bounds 0.3 0.8 (r.rand.2.rand.2) (by norm_num)
    have hr := round2_bounds (amt * (uniform 0.3 0.8 r.rand.2.rand.2).1)
    refine ⟨fun _ => ⟨?_, ?_, h1.1⟩, fun hf => by simp at hf⟩
    · nlinarith [hu.1, hu.2, hr.1, hr.2]
    · nlinarith [hu.1, hu.2, hr.1, hr.2]
  · exact ⟨fun ht => by simp at ht, fun _ => rfl⟩
  · exact ⟨fun ht => by simp at ht, fun _ => rfl⟩

theorem deviceBlock_spec (p : String) (r : RNG) :
    (p = "Mobile App" → (deviceBlock p r).1 = "Android" ∨ (deviceBlock p r).1 = "iOS") ∧
    (p = "QR Code" → (deviceBlock p r).1 = "Android" ∨ (deviceBlock p r).1 = "iOS") ∧
    (p = "Web Browser" → (deviceBlock p r).1 = "Windows" ∨ (deviceBlock p r).1 = "Mac" ∨
      (deviceBlock p r).1 = "Linux") ∧
    (p = "POS Terminal" → (deviceBlock p r).1 = "POS") := by
  unfold deviceBlock
  split_ifs with h1 h2 h3
  · subst h1
    have := weightedPick_mem ["Android", "iOS"] [0.72, 0.28] "" r (by simp)
    refine ⟨fun _ => ?_, fun hq => by simp at hq, fun hq => by simp at hq, fun hq => by simp at hq⟩
    simpa using this
  · subst h2
    have := weightedPick_mem ["Windows", "Mac", "Linux"] [0.65, 0.25, 0.10] "" r (by simp)
    refine ⟨fun hq => by simp at hq, fun hq => by simp at hq, fun _ => ?_, fun hq => by simp at hq⟩
    simpa using this
  · subst h3
    exact ⟨fun hq => by simp at hq, fun hq => by simp at hq, fun hq => by simp at hq, fun _ => rfl⟩
  · have := weightedPick_mem ["Android", "iOS"] [0.72, 0.28] "" r (by simp)
    exact ⟨fun hq => absurd hq h1, fun _ => by simpa using this,
      fun hq => absurd hq h2, fun hq => absurd hq h3⟩


/-! ### Field characterisations of a generated transaction

Each lemma exhibits the exact block application a `draws` field comes
from; the proofs are definitional. -/

theorem draws_status_shape (ps : List (String × Profile)) (y m dim : ℕ) (r : RNG) :
    ∃ a b c, (draws ps y m dim r).status = (statusBlock a b c).1 ∧
      (draws ps y m dim r).failure_reason = (statusBlock a b c).2.1 :=
  ⟨_, _, _, rfl, rfl⟩

theorem draws_fraud_shape (ps : List (String × Profile)) (y m dim : ℕ) (r : RNG) :
    ∃ a b c d, (draws ps y m dim r).is_flagged = (fraudFlag a b c d).1 ∧
      (draws ps y m dim r).fraud_reason = (fraudFlag a b c d).2.1 :=
  ⟨_, _, _, _, rfl, rfl⟩

theorem draws_device_shape (ps : List (String × Profile)) (y m dim : ℕ) (r : RNG) :
    ∃ c, (draws ps y m dim r).device_type = (deviceBlock (draws ps y m dim r).platform c).1 :=
  ⟨_, rfl⟩

theorem draws_platform_mem (ps : List (String × Profile)) (y m dim : ℕ) (r : RNG) :
    (draws ps y m dim r).platform ∈ platforms := by
  have : ∃ ws d c, (draws ps y m dim r).platform = (weightedPick platforms ws d c).1 :=
    ⟨_, _, _, rfl⟩
  obtain ⟨ws, d, c, hc⟩ := this
  rw [hc]
  exact weightedPick_mem _ _ _ _ (by simp [platforms])

theorem draws_category_mem (ps : List (String × Profile)) (y m dim : ℕ) (r : RNG) :
    (draws ps y m dim r).category ∈ categories := by
  have : ∃ ws d c, (draws ps y m dim r).category = (weightedPick categories ws d c).1 :=
    ⟨_, _, _, rfl⟩
  obtain ⟨ws, d, c, hc⟩ := this
  rw [hc]
  exact weightedPick_mem _ _ _ _ (by simp [categories])

theorem draws_amount_shape (ps : List (String × Profile)) (y m dim : ℕ) (r : RNG) :
    ∃ x, (draws ps y m dim r).amount = amountClamp (draws ps y m dim r).category x :=
  ⟨_, rfl⟩

theorem draws_refund_shape (ps : List (String × Profile)) (y m dim : ℕ) (r : RNG) :
    ∃ c, (draws ps y m dim r).is_refunded =
        (refundBlock (draws ps y m dim r).status (draws ps y m dim r).category
          (draws ps y m dim r).amount c).1 ∧
      (draws ps y m dim r).refund_amount =
        (refundBlock (draws ps y m dim r).status (draws ps y m dim r).category
          (draws ps y m dim r).amount c).2.1 :=
  ⟨_, rfl, rfl⟩


theorem draws_user_spec (ps : List (String × Profile)) (y m dim : ℕ) (r : RNG)
    (h : ps ≠ []) :
    ∃ u ∈ ps, (draws ps y m dim r).user_id = u.1 ∧
      (draws ps y m dim r).profile = u.2 := by
  have h1 : (draws ps y m dim r).user_id = (randomChoice (ps.map Prod.fst) "" r).1 := rfl
  have hm : (randomChoice (ps.map Prod.fst) "" r).1 ∈ ps.map Prod.fst :=
    randomChoice_mem _ _ _ (by simpa using h)
  obtain ⟨v, hv⟩ := lookup_of_mem_keys ps _ hm
  have h2 : (draws ps y m dim r).profile = v := by
    show (ps.lookup (randomChoice (ps.map Prod.fst) "" r).1).getD default = v
    rw [hv]
    rfl
  exact ⟨((randomChoice (ps.map Prod.fst) "" r).1, v), lookup_mem ps _ v hv, h1, h2⟩

theorem genOneTxn_status (ps : List (String × Profile)) (y m dim c : ℕ) (r : RNG) :
    (genOneTxn ps y m dim c r).1.status = (draws ps y m dim r).status := rfl

theorem genOneTxn_failure_reason (ps : List (String × Profile)) (y m dim c : ℕ) (r : RNG) :
    (genOneTxn ps y m dim c r).1.failure_reason = (draws ps y m dim r).failure_reason := rfl

theorem genOneTxn_category (ps : List (String × Profile)) (y m dim c : ℕ) (r : RNG) :
    (genOneTxn ps y m dim c r).1.category = (draws ps y m dim r).category := rfl

theorem genOneTxn_amount (ps : List (String × Profile)) (y m dim c : ℕ) (r : RNG) :
    (genOneTxn ps y m dim c r).1.amount = (draws ps y m dim r).amount := rfl

theorem genOneTxn_platform (ps : List (String × Profile)) (y m dim c : ℕ) (r : RNG) :
    (genOneTxn ps y m dim c r).1.platform = (draws ps y m dim r).platform := rfl

theorem genOneTxn_device_type (ps : List (String × Profile)) (y m dim c : ℕ) (r : RNG) :
    (genOneTxn ps y m dim c r).1.device_type = (draws ps y m dim r).device_type := rfl

theorem genOneTxn_user_id (ps : List (String × Profile)) (y m dim c : ℕ) (r : RNG) :
    (genOneTxn ps y m dim c r).1.user_id = (draws ps y m dim r).user_id := rfl

theorem genOneTxn_city (ps : List (String × Profile)) (y m dim c : ℕ) (r : RNG) :
    (genOneTxn ps y m dim c r).1.city = (draws ps y m dim r).profile.city := rfl

theorem genOneTxn_is_flagged (ps : List (String × Profile)) (y m dim c : ℕ) (r : RNG) :
    (genOneTxn ps y m dim c r).1.is_flagged = (draws ps y m dim r).is_flagged := rfl

theorem genOneTxn_fraud_reason (ps : List (String × Profile)) (y m dim c : ℕ) (r : RNG) :
    (genOneTxn ps y m dim c r).1.fraud_reason = (draws ps y m dim r).fraud_reason := rfl

theorem genOneTxn_is_refunded (ps : List (String × Profile)) (y m dim c : ℕ) (r : RNG) :
    (genOneTxn ps y m dim c r).1.is_refunded = (draws ps y m dim r).is_refunded := rfl

theorem genOneTxn_refund_amount (ps : List (String × Profile)) (y m dim c : ℕ) (r : RNG) :
    (genOneTxn ps y m dim c r).1.refund_amount = (draws ps y m dim r).refund_amount := rfl

theorem genOneTxn_counter (ps : List (String × Profile)) (y m dim c : ℕ) (r : RNG) :
    (genOneTxn ps y m dim c r).1.counter = c := rfl

/-! ### Loop decomposition -/

theorem mem_genTxnsLoop (ps : List (String × Profile)) (y m dim : ℕ) :
    ∀ (k ctr : ℕ) (r : RNG) (t : Txn), t ∈ (genTxnsLoop ps y m dim k ctr r).1 →
      ∃ c r', t = (genOneTxn ps y m dim c r').1
  | 0, ctr, r, t, h => by simp [genTxnsLoop] at h
  | Nat.succ k, ctr, r, t, h => by
    rw [genTxnsLoop] at h
    rcases List.mem_cons.mp h with h1 | h2
    · exact ⟨ctr + 1, r, h1⟩
    · exact mem_genTxnsLoop ps y m dim k (ctr + 1) _ t h2

theorem mem_genAllTxns (ps : List (String × Profile)) :
    ∀ (counts : List ((ℕ × ℕ) × ℤ)) (ctr : ℕ) (r : RNG) (t : Txn),
      t ∈ (genAllTxns ps counts ctr r).1 →
      ∃ y m c r', t = (genOneTxn ps y m (daysInMonth y m) c r').1
  | [], ctr, r, t, h => by simp [genAllTxns] at h
  | (ym, c) :: rest, ctr, r, t, h => by
    rw [genAllTxns] at h
    rcases List.mem_append.mp h with h1 | h2
    · obtain ⟨cc, r', ht⟩ := mem_genTxnsLoop ps ym.1 ym.2 (daysInMonth ym.1 ym.2) c.toNat ctr r t h1
      exact ⟨ym.1, ym.2, cc, r', ht⟩
    · exact mem_genAllTxns ps rest _ _ t h2

/-- Every transaction of a full run is one `genOneTxn` outcome over the
run's own user table. -/
theorem mem_generateAll (n : ℕ) (N : ℤ) (r : RNG) (t : Txn)
    (h : t ∈ (generateAll n N r).2) :
    ∃ y m c r', t = (genOneTxn (generateAll n N r).1 y m (daysInMonth y m) c r').1 := by
  exact mem_genAllTxns _ _ _ _ t h


theorem genTxnsLoop_counters (ps : List (String × Profile)) (y m dim : ℕ) :
    ∀ (k ctr : ℕ) (r : RNG),
      ((genTxnsLoop ps y m dim k ctr r).1).map Txn.counter = List.range' (ctr + 1) k
  | 0, ctr, r => by simp [genTxnsLoop]
  | Nat.succ k, ctr, r => by
    rw [genTxnsLoop, List.range'_succ]
    simp only [List.map_cons, List.cons.injEq]
    exact ⟨rfl, genTxnsLoop_counters ps y m dim k (ctr + 1) _⟩

theorem genAllTxns_counters (ps : List (String × Profile)) :
    ∀ (counts : List ((ℕ × ℕ) × ℤ)) (ctr : ℕ) (r : RNG),
      ((genAllTxns ps counts ctr r).1).map Txn.counter =
        List.range' (ctr + 1) ((counts.map fun p => p.2.toNat).sum)
  | [], ctr, r => by simp [genAllTxns]
  | (ym, c) :: rest, ctr, r => by
    rw [genAllTxns]
    simp only [List.map_append, List.map_cons, List.sum_cons]
    rw [genTxnsLoop_counters, genAllTxns_counters ps rest (ctr + c.toNat) _]
    have he : ctr + c.toNat + 1 = ctr + 1 + c.toNat := by omega
    rw [he, List.range'_append_1]
    congr 1
    omega

theorem generateAll_counters (n : ℕ) (N : ℤ) (r : RNG) :
    ((generateAll n N r).2).map Txn.counter =
      List.range' 1 ((generateAll n N r).2).length := by
  have h := genAllTxns_counters (genUsers n r).1 (monthlyTxnCounts N monthlyMultiplier) 0
    (genUsers n r).2
  have hlen : ((generateAll n N r).2).length =
      ((monthlyTxnCounts N monthlyMultiplier).map fun p => p.2.toNat).sum := by
    have h2 := congrArg List.length h
    simpa using h2
  show ((genAllTxns (genUsers n r).1 (monthlyTxnCounts N monthlyMultiplier) 0
    (genUsers n r).2).1).map Txn.counter = _
  rw [h, hlen]

/-! ### Per-transaction invariants at the `draws` level -/

theorem draws_failure_iff (ps : List (String × Profile)) (y m dim : ℕ) (r : RNG) :
    (draws ps y m dim r).failure_reason.isSome = true ↔
      ((draws ps y m dim r).status = "Failed" ∨ (draws ps y m dim r).status = "Pending") := by
  obtain ⟨a, b, c, h1, h2⟩ := draws_status_shape ps y m dim r
  rw [h1, h2]
  exact statusBlock_reason_iff a b c

theorem draws_flag_iff (ps : List (String × Profile)) (y m dim : ℕ) (r : RNG) :
    (draws ps y m dim r).is_flagged = true ↔
      (draws ps y m dim r).fraud_reason.isSome = true := by
  obtain ⟨a, b, c, d, h1, h2⟩ := draws_fraud_shape ps y m dim r
  rw [h1, h2]
  exact fraudFlag_flag_iff a b c d

theorem draws_amount_bounds (ps : List (String × Profile)) (y m dim : ℕ) (r : RNG) :
    (amountRanges (draws ps y m dim r).category).1 ≤ (draws ps y m dim r).amount ∧
      (draws ps y m dim r).amount ≤ (amountRanges (draws ps y m dim r).category).2 * 2 := by
  obtain ⟨x, hx⟩ := draws_amount_shape ps y m dim r
  rw [hx]
  exact amountClamp_bounds _ x

theorem draws_refund_spec (ps : List (String × Profile)) (y m dim : ℕ) (r : RNG) :
    ((draws ps y m dim r).is_refunded = true →
       0 < (draws ps y m dim r).refund_amount ∧
       (draws ps y m dim r).refund_amount ≤ (draws ps y m dim r).amount ∧
       (draws ps y m dim r).status = "Success") ∧
    ((draws ps y m dim r).is_refunded = false →
       (draws ps y m dim r).refund_amount = 0) := by
  have hamt : 1 ≤ (draws ps y m dim r).amount := by
    obtain ⟨x, hx⟩ := draws_amount_shape ps y m dim r
    have hb := (amountClamp_bounds (draws ps y m dim r).category x).1
    have h1 := amountRanges_one_le _ (draws_category_mem ps y m dim r)
    rw [hx]
    linarith
  obtain ⟨c, h1, h2⟩ := draws_refund_shape ps y m dim r
  rw [h1, h2]
  exact refundBlock_spec _ _ _ c hamt

theorem draws_device_spec (ps : List (String × Profile)) (y m dim : ℕ) (r : RNG) :
    ((draws ps y m dim r).platform = "Mobile App" →
      (draws ps y m dim r).device_type = "Android" ∨ (draws ps y m dim r).device_type = "iOS") ∧
    ((draws ps y m dim r).platform = "QR Code" →
      (draws ps y m dim r).device_type = "Android" ∨ (draws ps y m dim r).device_type = "iOS") ∧
    ((draws ps y m dim r).platform = "Web Browser" →
      (draws ps y m dim r).device_type = "Windows" ∨ (draws ps y m dim r).device_type = "Mac" ∨
      (draws ps y m dim r).device_type = "Linux") ∧
    ((draws ps y m dim r).platform = "POS Terminal" →
      (draws ps y m dim r).device_type = "POS") := by
  obtain ⟨c, hc⟩ := draws_device_shape ps y m dim r
  rw [hc]
  exact deviceBlock_spec _ c


/-! ### Concrete streams used by witnesses and counterexamples -/

/-- The all-zeros stream: every weighted pick takes the first alternative,
every coin toss succeeds (`0 < p` for every positive probability). -/
def rZero : RNG := ⟨fun _ => 0, 0⟩

/-- A stream whose 17th element (position 16, the status coin of the
single generated transaction after the 7 user draws and 9 transaction
draws) makes the failure coin miss, and whose next element makes the
Pending coin hit, producing a Pending transaction. -/
def rPend : RNG := ⟨fun n => if n = 16 then (1 : ℚ)/2 else 0, 0⟩

/-! ### User-table facts -/

theorem genProfilesGo_fst :
    ∀ (ids : List String) (r : RNG), ((genProfilesGo ids r).1).map Prod.fst = ids
  | [], _ => rfl
  | uid :: rest, r => by
    rw [genProfilesGo]
    simp only [List.map_cons]
    exact congrArg (List.cons uid) (genProfilesGo_fst rest _)

theorem generateAll_users_length (n : ℕ) (N : ℤ) (r : RNG) :
    ((generateAll n N r).1).length = n := by
  have h1 := congrArg List.length (genProfilesGo_fst (userIds n) r)
  simpa [userIds] using h1

/-! ### Sort-contract facts -/

theorem dtThenRevCounter_le {a b : Txn} (h : dtThenRevCounter a b) : dtLE a b := by
  rcases h with h1 | ⟨h2, _⟩
  · exact Nat.le_of_lt h1
  · exact Nat.le_of_eq h2

theorem sortByDt_contract : SortValuesContract sortByDt := fun l =>
  ⟨List.perm_insertionSort dtLE l, List.sorted_insertionSort dtLE l⟩

theorem badSort_contract : SortValuesContract badSort := fun l =>
  ⟨List.perm_insertionSort dtThenRevCounter l,
   (List.sorted_insertionSort dtThenRevCounter l).imp fun h => dtThenRevCounter_le h⟩

/-! ### Fraud-rule interaction -/

theorem fraudRuleB_fires (a : ℚ) (h : ℕ) (st : (Bool × Option String) × RNG)
    (hg : (h = 0 ∨ h = 1 ∨ h = 2 ∨ h = 3 ∨ h = 4) ∧ a > 5000)
    (hc : st.2.rand.1 < 0.20) :
    fraudRuleB a h st = ((true, some "Suspicious Late Night Transaction"), st.2.rand.2) := by
  unfold fraudRuleB
  rw [if_pos hg, if_pos hc]

theorem fraudRuleC_skip (st : (Bool × Option String) × RNG) (hf : st.1.1 = true) :
    fraudRuleC st = (st.1.1, st.1.2, st.2) := by
  unfold fraudRuleC
  rw [if_neg (by simp [hf])]

/-! ### Nonemptiness of the concrete runs (via the partition only) -/

theorem headD_mem {α : Type} (l : List α) (d : α) (h : l ≠ []) : l.headD d ∈ l := by
  cases l with
  | nil => exact absurd rfl h
  | cons a t => simp

theorem generateAll_txns_length (n : ℕ) (N : ℤ) (r : RNG) :
    ((generateAll n N r).2).length =
      ((monthlyTxnCounts N monthlyMultiplier).map fun p => p.2.toNat).sum := by
  have h := genAllTxns_counters (genUsers n r).1 (monthlyTxnCounts N monthlyMultiplier) 0
    (genUsers n r).2
  have h2 := congrArg List.length h
  simpa using h2

theorem monthlyTxnCounts_one :
    ((monthlyTxnCounts 1 monthlyMultiplier).map fun p => p.2.toNat).sum = 1 :=
  of_decide_eq_true (by with_unfolding_all rfl)

theorem monthlyTxnCounts_two :
    ((monthlyTxnCounts 2 monthlyMultiplier).map fun p => p.2.toNat).sum = 2 :=
  of_decide_eq_true (by with_unfolding_all rfl)

theorem run1_ne_nil (r : RNG) : (generateAll 1 1 r).2 ≠ [] := by
  intro hc
  have h := generateAll_txns_length 1 1 r
  rw [hc, monthlyTxnCounts_one] at h
  simp at h

/-! ### Claim theorems -/

/-- C1 (counterexample): the claim says `failure_reason` is absent for any
status other than Failed, Pending included.  A concrete run produces a
Pending transaction whose `failure_reason` is the literal "Processing". -/
theorem C1_counterexample :
    ∃ t ∈ (generateAll 1 1 rPend).2, t.status = "Pending" ∧ t.status ≠ "Failed" ∧
      t.failure_reason = some "Processing" := by
  refine ⟨(generateAll 1 1 rPend).2.headD default, headD_mem _ _ (run1_ne_nil rPend),
    ?_, ?_, ?_⟩ <;> exact of_decide_eq_true (by with_unfolding_all rfl)

/-- C1 (amended): for every generated transaction, `failure_reason` is
non-null iff the status is Failed or Pending (Failed carries a
method-specific reason, Pending the literal "Processing", Success null). -/
theorem C1_amended_theorem (n : ℕ) (N : ℤ) (r : RNG) (t : Txn)
    (ht : t ∈ (generateAll n N r).2) :
    t.failure_reason.isSome = true ↔ (t.status = "Failed" ∨ t.status = "Pending") := by
  obtain ⟨y, m, c, r2, rfl⟩ := mem_generateAll n N r t ht
  rw [genOneTxn_failure_reason, genOneTxn_status]
  exact draws_failure_iff _ y m (daysInMonth y m) r2

/-- C1 witness: the amended equivalence holds at a concrete generated
transaction. -/
theorem C1_witness :
    ((generateAll 1 1 rPend).2.headD default).failure_reason.isSome = true ↔
      (((generateAll 1 1 rPend).2.headD default).status = "Failed" ∨
       ((generateAll 1 1 rPend).2.headD default).status = "Pending") :=
  C1_amended_theorem 1 1 rPend _ (headD_mem _ _ (run1_ne_nil rPend))

/-- C2 (counterexample): the claim says an earlier fraud rule's reason is
never overwritten by a later rule.  On a concrete input rule a fires
(amount above the category threshold, its coin under 0.15), yet the final
`fraud_reason` is rule b's "Suspicious Late Night Transaction". -/
theorem C2_counterexample :
    (13520 : ℚ) > highThreshold "Shopping" ∧
    (fraudRuleA "Shopping" 13520 rZero).1 = (true, some "Unusually High Amount") ∧
    (fraudFlag "Shopping" 13520 0 rZero).2.1 = some "Suspicious Late Night Transaction" := by
  refine ⟨?_, ?_, ?_⟩ <;> exact of_decide_eq_true (by with_unfolding_all rfl)

/-- C2 (amended): rule b is evaluated even when rule a already flagged;
whenever rule b's guard holds and its coin fires, the transaction ends
flagged with rule b's reason (overwriting any rule-a reason), and rule c
draws nothing (the block's final RNG state is the state right after rule
b's coin). -/
theorem C2_amended_theorem (cat : String) (amount : ℚ) (hour : ℕ) (r : RNG)
    (hg : (hour = 0 ∨ hour = 1 ∨ hour = 2 ∨ hour = 3 ∨ hour = 4) ∧ amount > 5000)
    (hc : ((fraudRuleA cat amount r).2).rand.1 < 0.20) :
    (fraudFlag cat amount hour r).1 = true ∧
    (fraudFlag cat amount hour r).2.1 = some "Suspicious Late Night Transaction" ∧
    (fraudFlag cat amount hour r).2.2 = ((fraudRuleA cat amount r).2).rand.2 := by
  unfold fraudFlag
  rw [fraudRuleB_fires amount hour _ hg hc, fraudRuleC_skip _ rfl]
  exact ⟨rfl, rfl, rfl⟩

/-- C2 witness: the amended behaviour at a concrete input. -/
theorem C2_witness :
    (fraudFlag "Shopping" 13520 0 rZero).1 = true ∧
    (fraudFlag "Shopping" 13520 0 rZero).2.1 = some "Suspicious Late Night Transaction" ∧
    (fraudFlag "Shopping" 13520 0 rZero).2.2 = ((fraudRuleA "Shopping" 13520 rZero).2).rand.2 :=
  C2_amended_theorem "Shopping" 13520 0 rZero
    ⟨Or.inl rfl, of_decide_eq_true (by with_unfolding_all rfl)⟩
    (of_decide_eq_true (by with_unfolding_all rfl))

/-- C3: the monthly partition gives every non-final month
`int(N * multiplier/total_weight)` and the last month the running
remainder (definition `monthlyTxnCounts`), so the per-month counts sum to
exactly `N` for every total and every multiplier table. -/
theorem C3_theorem (N : ℤ) (mult : ℕ → ℚ) :
    ((monthlyTxnCounts N mult).map Prod.snd).sum = N :=
  monthlyGo_sum _ allMonths N (by simp [allMonths])

/-- C5: generation is deterministic — equal population size, transaction
total and random stream give identical User and Transaction tables. -/
theorem C5_theorem (n n2 : ℕ) (N N2 : ℤ) (r r2 : RNG)
    (h1 : n = n2) (h2 : N = N2) (h3 : r = r2) :
    generateAll n N r = generateAll n2 N2 r2 := by
  subst h1
  subst h2
  subst h3
  rfl

/-- C5 witness: determinism instantiated at a concrete configuration. -/
theorem C5_witness : generateAll 1 1 rZero = generateAll 1 1 rZero :=
  C5_theorem 1 1 1 1 rZero rZero rfl rfl rfl

/-- C6: every generated transaction's amount lies in
`[lo, 2*hi]` for its category's configured range. -/
theorem C6_theorem (n : ℕ) (N : ℤ) (r : RNG) (t : Txn)
    (ht : t ∈ (generateAll n N r).2) :
    (amountRanges t.category).1 ≤ t.amount ∧
      t.amount ≤ 2 * (amountRanges t.category).2 := by
  obtain ⟨y, m, c, r2, rfl⟩ := mem_generateAll n N r t ht
  rw [genOneTxn_category, genOneTxn_amount]
  have h := draws_amount_bounds (generateAll n N r).1 y m (daysInMonth y m) r2
  exact ⟨h.1, by linarith [h.2]⟩

/-- C6 witness: the amount bounds at a concrete generated transaction. -/
theorem C6_witness :
    (amountRanges ((generateAll 1 1 rZero).2.headD default).category).1 ≤
      ((generateAll 1 1 rZero).2.headD default).amount ∧
    ((generateAll 1 1 rZero).2.headD default).amount ≤
      2 * (amountRanges ((generateAll 1 1 rZero).2.headD default).category).2 :=
  C6_theorem 1 1 rZero _ (headD_mem _ _ (run1_ne_nil rZero))

/-- C7: every generated transaction references a user present in the
generated user table, and its city equals that user's city. -/
theorem C7_theorem (n : ℕ) (N : ℤ) (r : RNG) (hn : 0 < n) (t : Txn)
    (ht : t ∈ (generateAll n N r).2) :
    ∃ u ∈ (generateAll n N r).1, t.user_id = u.1 ∧ t.city = u.2.city := by
  obtain ⟨y, m, c, r2, rfl⟩ := mem_generateAll n N r t ht
  rw [genOneTxn_user_id, genOneTxn_city]
  have hne : (generateAll n N r).1 ≠ [] := by
    intro hc
    have hl := generateAll_users_length n N r
    rw [hc] at hl
    simp at hl
    omega
  obtain ⟨u, hu, h1, h2⟩ := draws_user_spec (generateAll n N r).1 y m (daysInMonth y m) r2 hne
  exact ⟨u, hu, h1, by rw [h2]⟩

/-- C7 witness: referential integrity at a concrete generated
transaction. -/
theorem C7_witness :
    ∃ u ∈ (generateAll 1 1 rZero).1,
      ((generateAll 1 1 rZero).2.headD default).user_id = u.1 ∧
      ((generateAll 1 1 rZero).2.headD default).city = u.2.city :=
  C7_theorem 1 1 rZero (by omega) _ (headD_mem _ _ (run1_ne_nil rZero))

/-- C8: for every generated transaction, a refunded transaction has
`0 < refund_amount ≤ amount` and Success status, and `refund_amount` is
nonzero only when refunded. -/
theorem C8_theorem (n : ℕ) (N : ℤ) (r : RNG) (t : Txn)
    (ht : t ∈ (generateAll n N r).2) :
    (t.is_refunded = true →
      0 < t.refund_amount ∧ t.refund_amount ≤ t.amount ∧ t.status = "Success") ∧
    (t.is_refunded = false → t.refund_amount = 0) := by
  obtain ⟨y, m, c, r2, rfl⟩ := mem_generateAll n N r t ht
  rw [genOneTxn_is_refunded, genOneTxn_refund_amount, genOneTxn_amount, genOneTxn_status]
  exact draws_refund_spec (generateAll n N r).1 y m (daysInMonth y m) r2

/-- C8 witness: the refund invariant at a concrete generated
transaction. -/
theorem C8_witness :
    (((generateAll 1 1 rZero).2.headD default).is_refunded = true →
      0 < ((generateAll 1 1 rZero).2.headD default).refund_amount ∧
      ((generateAll 1 1 rZero).2.headD default).refund_amount ≤
        ((generateAll 1 1 rZero).2.headD default).amount ∧
      ((generateAll 1 1 rZero).2.headD default).status = "Success") ∧
    (((generateAll 1 1 rZero).2.headD default).is_refunded = false →
      ((generateAll 1 1 rZero).2.headD default).refund_amount = 0) :=
  C8_theorem 1 1 rZero _ (headD_mem _ _ (run1_ne_nil rZero))

/-- C9: every generated transaction's device type belongs to the set its
platform allows (Mobile App / QR Code → Android or iOS; Web Browser →
Windows, Mac or Linux; POS Terminal → POS). -/
theorem C9_theorem (n : ℕ) (N : ℤ) (r : RNG) (t : Txn)
    (ht : t ∈ (generateAll n N r).2) :
    (t.platform = "Mobile App" → t.device_type = "Android" ∨ t.device_type = "iOS") ∧
    (t.platform = "QR Code" → t.device_type = "Android" ∨ t.device_type = "iOS") ∧
    (t.platform = "Web Browser" → t.device_type = "Windows" ∨ t.device_type = "Mac" ∨
      t.device_type = "Linux") ∧
    (t.platform = "POS Terminal" → t.device_type = "POS") := by
  obtain ⟨y, m, c, r2, rfl⟩ := mem_generateAll n N r t ht
  rw [genOneTxn_platform, genOneTxn_device_type]
  exact draws_device_spec (generateAll n N r).1 y m (daysInMonth y m) r2

/-- C9 witness: the device/platform coupling at a concrete generated
transaction. -/
theorem C9_witness :
    (((generateAll 1 1 rZero).2.headD default).platform = "Mobile App" →
      ((generateAll 1 1 rZero).2.headD default).device_type = "Android" ∨
      ((generateAll 1 1 rZero).2.headD default).device_type = "iOS") ∧
    (((generateAll 1 1 rZero).2.headD default).platform = "QR Code" →
      ((generateAll 1 1 rZero).2.headD default).device_type = "Android" ∨
      ((generateAll 1 1 rZero).2.headD default).device_type = "iOS") ∧
    (((generateAll 1 1 rZero).2.headD default).platform = "Web Browser" →
      ((generateAll 1 1 rZero).2.headD default).device_type = "Windows" ∨
      ((generateAll 1 1 rZero).2.headD default).device_type = "Mac" ∨
      ((generateAll 1 1 rZero).2.headD default).device_type = "Linux") ∧
    (((generateAll 1 1 rZero).2.headD default).platform = "POS Terminal" →
      ((generateAll 1 1 rZero).2.headD default).device_type = "POS") :=
  C9_theorem 1 1 rZero _ (headD_mem _ _ (run1_ne_nil rZero))

/-- C10: every generated transaction is flagged iff it carries a fraud
reason. -/
theorem C10_theorem (n : ℕ) (N : ℤ) (r : RNG) (t : Txn)
    (ht : t ∈ (generateAll n N r).2) :
    t.is_flagged = true ↔ t.fraud_reason.isSome = true := by
  obtain ⟨y, m, c, r2, rfl⟩ := mem_generateAll n N r t ht
  rw [genOneTxn_is_flagged, genOneTxn_fraud_reason]
  exact draws_flag_iff (generateAll n N r).1 y m (daysInMonth y m) r2

/-- C10 witness: the flag/reason equivalence at a concrete generated
transaction. -/
theorem C10_witness :
    ((generateAll 1 1 rZero).2.headD default).is_flagged = true ↔
      ((generateAll 1 1 rZero).2.headD default).fraud_reason.isSome = true :=
  C10_theorem 1 1 rZero _ (headD_mem _ _ (run1_ne_nil rZero))

/-- C4 (counterexample): the claim says the final sort is stable, equal
datetimes appearing in generation order.  `sort_values` with its default
`kind='quicksort'` only guarantees a datetime-sorted permutation; a
conforming sort (`badSort`) applied to a real generated run with two
equal-datetime transactions outputs them in reversed generation order. -/
theorem C4_counterexample :
    SortValuesContract badSort ∧
    (generateAll 1 2 rZero).2.map Txn.datetime = [63900144000, 63900144000] ∧
    (generateAll 1 2 rZero).2.map Txn.counter = [1, 2] ∧
    (badSort ((generateAll 1 2 rZero).2)).map Txn.counter = [2, 1] := by
  refine ⟨badSort_contract, ?_, ?_, ?_⟩ <;>
    exact of_decide_eq_true (by with_unfolding_all rfl)

/-- C4 (amended): transaction ids are assigned sequentially in generation
order before sorting, and any sort satisfying the `sort_values` contract
returns a datetime-sorted permutation of the generated list; the order of
equal datetimes is not guaranteed. -/
theorem C4_amended_theorem (f : List Txn → List Txn) (hf : SortValuesContract f)
    (n : ℕ) (N : ℤ) (r : RNG) :
    ((generateAll n N r).2).map Txn.counter =
      List.range' 1 ((generateAll n N r).2).length ∧
    (f ((generateAll n N r).2)).Sorted dtLE ∧
    (f ((generateAll n N r).2)).Perm ((generateAll n N r).2) :=
  ⟨generateAll_counters n N r, (hf _).2, (hf _).1⟩

/-- C4 witness: the amended assembler contract at a concrete run and a
concrete conforming sort. -/
theorem C4_witness :
    ((generateAll 1 1 rZero).2).map Txn.counter =
      List.range' 1 ((generateAll 1 1 rZero).2).length ∧
    (sortByDt ((generateAll 1 1 rZero).2)).Sorted dtLE ∧
    (sortByDt ((generateAll 1 1 rZero).2)).Perm ((generateAll 1 1 rZero).2) :=
  C4_amended_theorem sortByDt sortByDt_contract 1 1 rZero

end DigitalTxn
